import Mathlib

/-
Verification development for the zenobuf node/RPC/parameter core.

Shallow embedding of the Rust sources:
  crates/zenobuf-core/src/error.rs        (Error enum)
  crates/zenobuf-core/src/transport/zenoh.rs  (ZenohClient::call / call_async)
  crates/zenobuf-core/src/transport/mock.rs   (MockTransport / MockPublisher / MockClient)
  crates/zenobuf-core/src/node.rs         (Node registry, parameters)
  crates/zenobuf-core/src/qos.rs          (QosProfile)
  zenobuf-core/src/parameter.rs           (Parameter store)
  crates/zenobuf-core/src/message.rs      (encode_message / decode_message)

Machine integers do not overflow in any modelled path, so Rust integers are
modelled as Nat / Int.  Byte payloads (Vec of u8) are modelled as List Nat.
Rust Result is modelled as Except, Option as Option.  Mutex-protected maps
are modelled as association lists with explicit state passing; every modelled
operation that mutates a map returns the new state.
-/

namespace Zenobuf

/-- Duration, models std::time::Duration at millisecond granularity
(all durations appearing in the modelled code are whole milliseconds). -/
structure Duration where
  ms : Nat
  deriving DecidableEq, Repr

/-- Error, models the Error enum of crates/zenobuf-core/src/error.rs.
Only the variants reachable from the modelled code are included.
A zenoh::Error source is modelled by its display string.
The repository holds two revisions of the error enum: the structured one
(struct variants with named fields) and a legacy one (single-string tuple
variants).  transport/mock.rs builds its ServiceCallFailed error with the
one-string tuple form and zenobuf-core/src/parameter.rs builds its
Parameter error with the one-string tuple form; those sites map to the
Legacy constructors below. -/
inductive Error where
  | Transport (source : String) (context : String)
  | Decoding (msg : String)
  | TopicAlreadyExists (topic : String) (node : String)
  | ServiceAlreadyExists (service : String) (node : String)
  | ServiceCallFailed (service : String) (reason : String)
  | ServiceCallFailedLegacy (service : String)
  | Parameter (name : String) (reason : String)
  | ParameterLegacy (msg : String)
  | Client (service : String) (reason : String)
  | Publisher (topic : String) (reason : String)
  | Subscriber (topic : String) (reason : String)
  | Service (service : String) (reason : String)
  deriving DecidableEq, Repr

/-- Outcome of one transport-level query attempt inside ZenohClient::call,
i.e. one iteration of the retry loop interacting with
session.get(selector).payload(bytes).timeout(10s) and then the reply stream.
  getErr e:    session.get returned Err(e)
  recvErr e:   reply.recv_async() returned Err(e)  (e.g. no responder / timeout)
  sampleErr e: the received sample.result() was Err(e)  (application error reply)
  reply p:     a sample with payload p arrived (the client then decodes p). -/
inductive AttemptOutcome where
  | getErr (e : String)
  | recvErr (e : String)
  | sampleErr (e : String)
  | reply (payload : List Nat)
  deriving DecidableEq, Repr

/-- Observable events emitted by an RPC call, in order:
encoding the request, issuing one query (with the payload it carries),
and sleeping for a backoff delay (in milliseconds). -/
inductive Event where
  | encode (bytes : List Nat)
  | query (bytes : List Nat)
  | sleep (ms : Nat)
  deriving DecidableEq, Repr

/-- Number of query events in a trace. -/
def queryCount (evs : List Event) : Nat :=
  (evs.filter fun e => match e with | .query _ => true | _ => false).length

/-- Number of encode events in a trace. -/
def encodeCount (evs : List Event) : Nat :=
  (evs.filter fun e => match e with | .encode _ => true | _ => false).length

/-- Total milliseconds slept in a trace. -/
def sleepTotal (evs : List Event) : Nat :=
  (evs.map fun e => match e with | .sleep ms => ms | _ => 0).sum

/-- The retry cap of ZenohClient::call (zenoh.rs line 303: let max_retries = 3). -/
def max_retries : Nat := 3

/-- The backoff base of ZenohClient::call (zenoh.rs line 306:
let base_delay = Duration::from_millis(100)), in milliseconds. -/
def base_delay_ms : Nat := 100

/-- The fall-through tail of one failed retry-loop iteration of
ZenohClient::call (zenoh.rs lines 361-373): after a failed attempt the
loop increments retry_count to rc' and, when rc' is still below the cap,
sleeps the exponential backoff base_delay * 2 ^ rc' before the next
iteration.  rest is the outcome of the remaining iterations; the query
event of the just-failed attempt and the conditional sleep are prepended
to its trace. -/
def zenohRetryTail (Res : Type) (rest : Except Error Res × List Event)
    (bytes : List Nat) (rc' : Nat) : Except Error Res × List Event :=
  if rc' < max_retries then
    (rest.1, Event.query bytes :: Event.sleep (base_delay_ms * 2 ^ rc') :: rest.2)
  else
    (rest.1, Event.query bytes :: rest.2)

/-- The post-loop return of ZenohClient::call, zenoh.rs lines 377-383:
after exhausting all retries, return the last recorded error, or the
generic failed-after-retries error when no attempt recorded a cause. -/
def zenohAfterRetries (Res : Type) (service_name : String) (lastError : Option Error) :
    Except Error Res × List Event :=
  match lastError with
  | some e => (.error e, [])
  | none => (.error (Error.ServiceCallFailed service_name "Service call failed after retries"), [])

/-- The retry loop of ZenohClient::call, zenoh.rs lines 308-374.  The loop
variable retry_count is rc, last_error is lastError.  The environment
attempts gives, for each retry_count value, what the transport did on
that query attempt; decode models decode_message for the response type.
Returns the call result together with the trace of query/sleep events
the loop performs.  An early return Ok(response) happens only in the
reply case with a successful decode; every other branch records the
attempt's cause as last_error and falls through to the retry_count
increment and conditional backoff sleep (zenohRetryTail). -/
def zenohCallLoop (Res : Type) (decode : List Nat → Except Error Res)
    (service_name : String) (attempts : Nat → AttemptOutcome) (bytes : List Nat)
    (rc : Nat) (lastError : Option Error) : Except Error Res × List Event :=
  if _h : rc < max_retries then
    match attempts rc with
    | .reply payload =>
      match decode payload with
      | .ok response => (.ok response, [.query bytes])
      | .error e =>
        zenohRetryTail Res
          (zenohCallLoop Res decode service_name attempts bytes (rc + 1) (some e)) bytes (rc + 1)
    | .sampleErr e =>
      zenohRetryTail Res
        (zenohCallLoop Res decode service_name attempts bytes (rc + 1)
          (some (Error.ServiceCallFailed service_name ("Error in response: " ++ e)))) bytes (rc + 1)
    | .recvErr e =>
      zenohRetryTail Res
        (zenohCallLoop Res decode service_name attempts bytes (rc + 1)
          (some (Error.ServiceCallFailed service_name ("No response: " ++ e)))) bytes (rc + 1)
    | .getErr e =>
      zenohRetryTail Res
        (zenohCallLoop Res decode service_name attempts bytes (rc + 1)
          (some (Error.Transport e "unknown"))) bytes (rc + 1)
  else
    zenohAfterRetries Res service_name lastError
termination_by max_retries - rc

/-- ZenohClient::call, zenoh.rs lines 289-385 (the blocking form; the
block_on wrapper is transparent in this model).  key_expr_err is the
result of KeyExpr::try_from on the service name (none when the name is a
valid key expression); encode models encode_message for the request type.
Returns the result and the full event trace. -/
def ZenohClient.call (Req Res : Type) (encode : Req → List Nat)
    (decode : List Nat → Except Error Res) (service_name : String)
    (key_expr_err : Option String) (attempts : Nat → AttemptOutcome)
    (request : Req) : Except Error Res × List Event :=
  match key_expr_err with
  | some e => (.error (Error.Client service_name e), [])
  | none =>
    let bytes := encode request
    let r := zenohCallLoop Res decode service_name attempts bytes 0 none
    (r.1, Event.encode bytes :: r.2)

/-- The retry loop of ZenohClient::call_async, zenoh.rs lines 406-471,
transcribed independently of zenohCallLoop so that the equivalence of the
blocking and suspending forms is a theorem about two separate
transcriptions rather than a definitional identity. -/
def zenohCallAsyncLoop (Res : Type) (decode : List Nat → Except Error Res)
    (service_name : String) (attempts : Nat → AttemptOutcome) (bytes : List Nat)
    (rc : Nat) (lastError : Option Error) : Except Error Res × List Event :=
  if _h : rc < max_retries then
    match attempts rc with
    | .reply payload =>
      match decode payload with
      | .ok response => (.ok response, [.query bytes])
      | .error e =>
        zenohRetryTail Res
          (zenohCallAsyncLoop Res decode service_name attempts bytes (rc + 1) (some e)) bytes (rc + 1)
    | .sampleErr e =>
      zenohRetryTail Res
        (zenohCallAsyncLoop Res decode service_name attempts bytes (rc + 1)
          (some (Error.ServiceCallFailed service_name ("Error in response: " ++ e)))) bytes (rc + 1)
    | .recvErr e =>
      zenohRetryTail Res
        (zenohCallAsyncLoop Res decode service_name attempts bytes (rc + 1)
          (some (Error.ServiceCallFailed service_name ("No response: " ++ e)))) bytes (rc + 1)
    | .getErr e =>
      zenohRetryTail Res
        (zenohCallAsyncLoop Res decode service_name attempts bytes (rc + 1)
          (some (Error.Transport e "unknown"))) bytes (rc + 1)
  else
    zenohAfterRetries Res service_name lastError
termination_by max_retries - rc

/-- ZenohClient::call_async, zenoh.rs lines 387-482. -/
def ZenohClient.call_async (Req Res : Type) (encode : Req → List Nat)
    (decode : List Nat → Except Error Res) (service_name : String)
    (key_expr_err : Option String) (attempts : Nat → AttemptOutcome)
    (request : Req) : Except Error Res × List Event :=
  match key_expr_err with
  | some e => (.error (Error.Client service_name e), [])
  | none =>
    let bytes := encode request
    let r := zenohCallAsyncLoop Res decode service_name attempts bytes 0 none
    (r.1, Event.encode bytes :: r.2)

/-- The failure cause an attempt outcome records into last_error, or none
when the attempt succeeds (a reply whose payload decodes).  This mirrors
the per-branch last_error assignments of the loop body. -/
def attemptError (Res : Type) (decode : List Nat → Except Error Res)
    (service_name : String) : AttemptOutcome → Option Error
  | .reply payload =>
    match decode payload with
    | .ok _ => none
    | .error e => some e
  | .sampleErr e => some (Error.ServiceCallFailed service_name ("Error in response: " ++ e))
  | .recvErr e => some (Error.ServiceCallFailed service_name ("No response: " ++ e))
  | .getErr e => some (Error.Transport e "unknown")

/-- Lookup in a string-keyed map.  The std HashMap of the source is
modelled as an association list without duplicate keys (duplicate-free by
construction: mapInsert replaces). -/
def mapFind {A : Type} (m : List (String × A)) (k : String) : Option A :=
  match m with
  | [] => none
  | (k1, v) :: rest => if k1 = k then some v else mapFind rest k

/-- HashMap::contains_key. -/
def mapContains {A : Type} (m : List (String × A)) (k : String) : Bool :=
  (mapFind m k).isSome

/-- HashMap::insert: replaces the binding when the key is present,
appends it otherwise. -/
def mapInsert {A : Type} (m : List (String × A)) (k : String) (v : A) : List (String × A) :=
  match m with
  | [] => [(k, v)]
  | (k1, v1) :: rest => if k1 = k then (k, v) :: rest else (k1, v1) :: mapInsert rest k v

/-- Reliability, qos.rs lines 149-155. -/
inductive Reliability where
  | BestEffort
  | Reliable
  deriving DecidableEq, Repr

/-- Durability, qos.rs lines 157-164. -/
inductive Durability where
  | Volatile
  | TransientLocal
  deriving DecidableEq, Repr

/-- History, qos.rs lines 166-173. -/
inductive History where
  | KeepLast
  | KeepAll
  deriving DecidableEq, Repr

/-- QosProfile, qos.rs lines 31-45. -/
structure QosProfile where
  reliability : Reliability
  durability : Durability
  history : History
  depth : Nat
  deadline : Option Duration
  lifespan : Option Duration
  deriving DecidableEq, Repr

/-- Default::default for QosProfile, qos.rs lines 47-58. -/
def QosProfile.default : QosProfile :=
  { reliability := .Reliable
    durability := .Volatile
    history := .KeepLast
    depth := 10
    deadline := none
    lifespan := none }

/-- The universe of supported parameter value types (string, integer,
float, boolean, arrays thereof), the types the specification names as the
supported parameter types.  Rust f64 values are modelled as rationals
(every finite double is rational; parameter claims involve no float
arithmetic). -/
inductive PType where
  | str
  | int
  | float
  | bool
  | arr (elem : PType)
  deriving DecidableEq, Repr

/-- The Lean carrier of each supported parameter type. -/
def PType.interp : PType → Type
  | .str => String
  | .int => Int
  | .float => Rat
  | .bool => Bool
  | .arr t => List t.interp

/-- JSON values, modelling the serde_json canonical form; the serialized
String field of Parameter is modelled by the Json value it parses to
(serde_json::to_string followed by from_str round-trips through exactly
this value). -/
inductive Json where
  | str (s : String)
  | int (n : Int)
  | num (q : Rat)
  | bool (b : Bool)
  | arr (xs : List Json)

mutual

/-- serde_json serialization of a supported parameter value; total, since
serde_json::to_string succeeds on every value of the supported types. -/
def PType.toJson : (t : PType) → t.interp → Json
  | .str, s => .str s
  | .int, n => .int n
  | .float, q => .num q
  | .bool, b => .bool b
  | .arr t, xs => .arr (PType.toJsonList t xs)

/-- Elementwise serialization of an array parameter value. -/
def PType.toJsonList (t : PType) : List t.interp → List Json
  | [] => []
  | x :: xs => PType.toJson t x :: PType.toJsonList t xs

end

mutual

/-- serde_json::from_str deserialization of a JSON value at a requested
parameter type; an integer JSON literal deserializes into the float type
as well as the integer type, all other cross-type reads fail. -/
def PType.fromJson : (t : PType) → Json → Except String t.interp
  | .str, .str s => .ok s
  | .int, .int n => .ok n
  | .float, .int n => .ok (n : Rat)
  | .float, .num q => .ok q
  | .bool, .bool b => .ok b
  | .arr t, .arr xs => PType.fromJsonList t xs
  | _, _ => .error "invalid type"

/-- Elementwise deserialization of a JSON array, failing on the first
element that fails. -/
def PType.fromJsonList (t : PType) : List Json → Except String (List t.interp)
  | [] => .ok []
  | j :: js =>
    match PType.fromJson t j, PType.fromJsonList t js with
    | .ok v, .ok vs => .ok (v :: vs)
    | .error e, _ => .error e
    | .ok _, .error e => .error e

end

/-- The content of the Box dyn Any value slot of Parameter: a value
tagged with its dynamic type. -/
def PValue : Type := Σ t : PType, t.interp

/-- Any::downcast_ref at type t: succeeds exactly when the stored dynamic
type is t, returning the stored value. -/
def PValue.downcast (t : PType) (v : PValue) : Option t.interp :=
  if h : v.1 = t then some (h ▸ v.2) else none

/-- Parameter, zenobuf-core/src/parameter.rs lines 13-20: a name, the
dynamically typed stored value, and the canonical serialized form. -/
structure Parameter where
  name : String
  value : PValue
  serialized : Json

/-- Parameter::new, parameter.rs lines 24-37.  serde_json::to_string is
modelled by PType.toJson and is total on the supported types, so the
serialization-failure arm of the source is unreachable and new always
returns Ok. -/
def Parameter.new (t : PType) (name : String) (value : t.interp) : Except Error Parameter :=
  .ok { name := name, value := ⟨t, value⟩, serialized := t.toJson value }

/-- Parameter::get_value, parameter.rs lines 45-63: try the same-type
downcast first; on type mismatch deserialize the canonical form at the
requested type; if that fails too, return the parameter error whose
message names the parameter (the source formats
Failed to deserialize parameter NAME: CAUSE into the one-string
Parameter error variant, the ParameterLegacy constructor here). -/
def Parameter.get_value (t : PType) (p : Parameter) : Except Error t.interp :=
  match p.value.downcast t with
  | some typed_value => .ok typed_value
  | none =>
    match t.fromJson p.serialized with
    | .ok deserialized => .ok deserialized
    | .error e =>
      .error (.ParameterLegacy ("Failed to deserialize parameter " ++ p.name ++ ": " ++ e))

/-- The typed publisher wrapper, publisher.rs: the topic name and the
underlying transport publisher (modelled by an opaque id). -/
structure Publisher where
  topic : String
  inner : Nat
  deriving DecidableEq, Repr

/-- The subscriber wrapper, subscriber.rs. -/
structure Subscriber where
  topic : String
  inner : Nat
  deriving DecidableEq, Repr

/-- The service wrapper, service.rs. -/
structure Service where
  name : String
  inner : Nat
  deriving DecidableEq, Repr

/-- The typed client wrapper, client.rs. -/
structure Client where
  name : String
  inner : Nat
  deriving DecidableEq, Repr

/-- Node, node.rs lines 161-176: the node name plus one map per resource
kind and the parameter map.  Each Mutex-protected HashMap is modelled as
an association list; the Box dyn Any stored for a resource is modelled by
the wrapper structure itself. -/
structure Node where
  name : String
  publishers : List (String × Publisher)
  subscribers : List (String × Subscriber)
  services : List (String × Service)
  clients : List (String × Client)
  parameters : List (String × Parameter)

/-- Node::create_publisher, node.rs lines 204-232: reject when the topic
name is already registered (TopicAlreadyExists, no mutation), otherwise
materialize the transport publisher (transport_create, which may fail),
wrap it, and insert it.  The unused _qos argument mirrors the source's
discarded _qos parameter. -/
def Node.create_publisher (node : Node) (topic : String) (_qos : QosProfile)
    (transport_create : Except Error Nat) : Except Error Publisher × Node :=
  let topic_name := topic
  if mapContains node.publishers topic_name then
    (.error (Error.TopicAlreadyExists topic_name node.name), node)
  else
    match transport_create with
    | .error e => (.error e, node)
    | .ok inner =>
      let publisher : Publisher := { topic := topic_name, inner := inner }
      (.ok publisher, { node with publishers := mapInsert node.publishers topic_name publisher })

/-- Node::create_subscriber, node.rs lines 235-270.  The user callback is
forwarded to the transport unchanged and plays no role in the registry,
so it is not part of the model. -/
def Node.create_subscriber (node : Node) (topic : String) (_qos : QosProfile)
    (transport_create : Except Error Nat) : Except Error Subscriber × Node :=
  let topic_name := topic
  if mapContains node.subscribers topic_name then
    (.error (Error.TopicAlreadyExists topic_name node.name), node)
  else
    match transport_create with
    | .error e => (.error e, node)
    | .ok inner =>
      let subscriber : Subscriber := { topic := topic_name, inner := inner }
      (.ok subscriber,
        { node with subscribers := mapInsert node.subscribers topic_name subscriber })

/-- Node::create_service, node.rs lines 273-307.  The handler is forwarded
to the transport unchanged and plays no role in the registry. -/
def Node.create_service (node : Node) (service_name : String)
    (transport_create : Except Error Nat) : Except Error Service × Node :=
  let full_service_name := service_name
  if mapContains node.services full_service_name then
    (.error (Error.ServiceAlreadyExists full_service_name node.name), node)
  else
    match transport_create with
    | .error e => (.error e, node)
    | .ok inner =>
      let service : Service := { name := full_service_name, inner := inner }
      (.ok service,
        { node with services := mapInsert node.services full_service_name service })

/-- Node::create_client, node.rs lines 310-336 (check and insert happen
under one lock hold; the transport client construction may formally fail
through the question-mark operator, though the zenoh implementation is
infallible there). -/
def Node.create_client (node : Node) (service_name : String)
    (transport_create : Except Error Nat) : Except Error Client × Node :=
  let full_service_name := service_name
  if mapContains node.clients full_service_name then
    (.error (Error.ServiceAlreadyExists full_service_name node.name), node)
  else
    match transport_create with
    | .error e => (.error e, node)
    | .ok inner =>
      let client : Client := { name := full_service_name, inner := inner }
      (.ok client,
        { node with clients := mapInsert node.clients full_service_name client })

/-- Node::set_parameter, node.rs lines 339-349: build the Parameter (the
question-mark operator propagates a construction failure without touching
the map) and insert it, replacing any previous binding of the name. -/
def Node.set_parameter (t : PType) (node : Node) (name : String) (value : t.interp) :
    Except Error Node :=
  match Parameter.new t name value with
  | .error e => .error e
  | .ok p => .ok { node with parameters := mapInsert node.parameters name p }

/-- Node::get_parameter, node.rs lines 352-362: look the name up in the
parameter map; delegate to Parameter::get_value when present, otherwise
return the parameter error with reason Parameter not found.  The map is
returned unchanged (the source takes a shared reference). -/
def Node.get_parameter (t : PType) (node : Node) (name : String) :
    Except Error t.interp × Node :=
  match mapFind node.parameters name with
  | some param => (Parameter.get_value t param, node)
  | none => (.error (Error.Parameter name "Parameter not found"), node)

/-- MockTransport, mock.rs lines 18-23: a topic map from name to the list
of published byte payloads, and a service map from name to byte-level
handler. -/
structure MockTransport where
  topics : List (String × List (List Nat))
  services : List (String × (List Nat → List Nat))

/-- MockTransport::new, mock.rs lines 33-38. -/
def MockTransport.new : MockTransport :=
  { topics := [], services := [] }

/-- MockTransport::create_publisher, mock.rs lines 41-58: ensure the topic
key exists (empty payload list) and hand out a publisher identified by the
topic name. -/
def MockTransport.create_publisher (st : MockTransport) (topic : String) :
    MockTransport × String :=
  let st1 :=
    if mapContains st.topics topic then st
    else { st with topics := mapInsert st.topics topic [] }
  (st1, topic)

/-- MockTransport::create_subscriber, mock.rs lines 61-99: ensure the
topic key exists, then process the messages already stored for the topic,
invoking the callback on each payload that decodes (the source comments
that a real implementation would spawn a polling thread; this one only
processes existing messages, and nothing in mock.rs ever invokes the
callback later).  The returned list is the complete sequence of values
the callback is invoked with. -/
def MockTransport.create_subscriber (M : Type) (decode : List Nat → Except Error M)
    (st : MockTransport) (topic : String) : MockTransport × List M :=
  let st1 :=
    if mapContains st.topics topic then st
    else { st with topics := mapInsert st.topics topic [] }
  let delivered :=
    match mapFind st1.topics topic with
    | some messages => messages.filterMap fun message_bytes => (decode message_bytes).toOption
    | none => []
  (st1, delivered)

/-- MockPublisher::publish, mock.rs lines 162-171: encode the message and
append the bytes to the topic's payload list when the topic key exists. -/
def MockPublisher.publish (M : Type) (encode : M → List Nat) (st : MockTransport)
    (topic : String) (message : M) : MockTransport :=
  let bytes := encode message
  match mapFind st.topics topic with
  | some messages => { st with topics := mapInsert st.topics topic (messages ++ [bytes]) }
  | none => st

/-- MockTransport::create_service, mock.rs lines 102-134: wrap the typed
handler as a byte-level handler that returns an empty byte vector both
when the request fails to decode and when the handler returns an error,
and store it under the service name. -/
def MockTransport.create_service (Req Res : Type)
    (decodeReq : List Nat → Except Error Req) (encodeRes : Res → List Nat)
    (st : MockTransport) (service_name : String)
    (handler : Req → Except Error Res) : MockTransport × String :=
  let handler_wrapper : List Nat → List Nat := fun request_bytes =>
    match decodeReq request_bytes with
    | .ok request =>
      match handler request with
      | .ok response => encodeRes response
      | .error _ => []
    | .error _ => []
  ({ st with services := mapInsert st.services service_name handler_wrapper }, service_name)

/-- MockClient::call, mock.rs lines 216-231: look the handler up, feed it
the encoded request, treat an empty response byte vector as a failed call
(the one-string ServiceCallFailed error carrying the service name),
otherwise decode the response. -/
def MockClient.call (Req Res : Type) (encode : Req → List Nat)
    (decode : List Nat → Except Error Res) (st : MockTransport)
    (service_name : String) (request : Req) : Except Error Res :=
  match mapFind st.services service_name with
  | some handler =>
    let request_bytes := encode request
    let response_bytes := handler request_bytes
    if response_bytes.isEmpty then
      .error (Error.ServiceCallFailedLegacy service_name)
    else
      decode response_bytes
  | none => .error (Error.ServiceCallFailedLegacy ("Service not found: " ++ service_name))

/-- MockClient::call_async, mock.rs lines 233-236: evaluate the blocking
call and wrap its result in an immediately ready future. -/
def MockClient.call_async (Req Res : Type) (encode : Req → List Nat)
    (decode : List Nat → Except Error Res) (st : MockTransport)
    (service_name : String) (request : Req) : Except Error Res :=
  let result := MockClient.call Req Res encode decode st service_name request
  result

/-- Concrete all-failing environment used to settle claim C1: every query
attempt ends with reply.recv_async() returning an error. -/
def c1attempts : Nat → AttemptOutcome := fun _ => .recvErr "down"

/-- Concrete request encoder for the C1 scenario. -/
def c1encode : Unit → List Nat := fun _ => [1]

/-- Concrete response decoder for the C1 scenario. -/
def c1decode : List Nat → Except Error Nat := fun _ => .error (.Decoding "bad")

/-- A fresh node with no registered resources and no parameters, used by
concrete witnesses. -/
def emptyNode : Node :=
  { name := "node"
    publishers := []
    subscribers := []
    services := []
    clients := []
    parameters := [] }

/-- Concrete message encoder for the mock pub/sub scenario of claim C8. -/
def c8encode : Nat → List Nat := fun n => [n]

/-- Concrete message decoder for the mock pub/sub scenario of claim C8:
inverse of c8encode on singleton payloads. -/
def c8decode : List Nat → Except Error Nat := fun b =>
  match b with
  | [n] => .ok n
  | _ => .error (.Decoding "bad")

/-- Concrete request/response encoder for the claim C10 scenarios: the
value 0 encodes to the empty byte sequence (as a defaulted prost message
does), every other value to a singleton payload. -/
def c10encode : Nat → List Nat := fun n => if n = 0 then [] else [n]

/-- Concrete decoder for the claim C10 scenarios: inverse of c10encode on
nonempty payloads, failing on the empty byte sequence. -/
def c10decode : List Nat → Except Error Nat := fun b =>
  match b with
  | [n] => .ok n
  | _ => .error (.Decoding "bad")

/-- Unfolding a loop iteration whose attempt fails with cause e: the loop
emits the query event, then (when more retries remain) the backoff sleep
of base_delay * 2 ^ retry_count for the incremented retry_count, and
continues with last_error = some e. -/
theorem zenohCallLoop_fail_step (Res : Type) (decode : List Nat → Except Error Res)
    (service_name : String) (attempts : Nat → AttemptOutcome) (bytes : List Nat)
    (rc : Nat) (lastError : Option Error) (e : Error)
    (hrc : rc < max_retries)
    (he : attemptError Res decode service_name (attempts rc) = some e) :
    zenohCallLoop Res decode service_name attempts bytes rc lastError =
      zenohRetryTail Res
        (zenohCallLoop Res decode service_name attempts bytes (rc + 1) (some e))
        bytes (rc + 1) := by
  conv_lhs => rw [zenohCallLoop.eq_def]
  rw [dif_pos hrc]
  rcases h : attempts rc with e1 | e1 | e1 | payload <;> rw [h] at he <;>
    simp only [attemptError] at he
  case getErr => rw [← Option.some_inj.mp he]
  case recvErr => rw [← Option.some_inj.mp he]
  case sampleErr => rw [← Option.some_inj.mp he]
  case reply =>
    rcases hd : decode payload with e2 | r
    · rw [hd] at he
      simp at he
      subst he
      simp [hd]
    · rw [hd] at he
      simp at he

/-- Unfolding a loop iteration whose attempt succeeds: the call returns the
decoded response at once, having emitted only this iteration's query. -/
theorem zenohCallLoop_success_step (Res : Type) (decode : List Nat → Except Error Res)
    (service_name : String) (attempts : Nat → AttemptOutcome) (bytes : List Nat)
    (rc : Nat) (lastError : Option Error) (payload : List Nat) (r : Res)
    (hrc : rc < max_retries)
    (ha : attempts rc = .reply payload) (hd : decode payload = .ok r) :
    zenohCallLoop Res decode service_name attempts bytes rc lastError =
      (.ok r, [Event.query bytes]) := by
  conv_lhs => rw [zenohCallLoop.eq_def]
  rw [dif_pos hrc]
  simp [ha, hd]

/-- When the retry cap is exhausted the loop returns the recorded last
cause (or the generic failed-after-retries error when none exists). -/
theorem zenohCallLoop_exhausted (Res : Type) (decode : List Nat → Except Error Res)
    (service_name : String) (attempts : Nat → AttemptOutcome) (bytes : List Nat)
    (rc : Nat) (lastError : Option Error)
    (hrc : ¬ rc < max_retries) :
    zenohCallLoop Res decode service_name attempts bytes rc lastError =
      zenohAfterRetries Res service_name lastError := by
  conv_lhs => rw [zenohCallLoop.eq_def]
  rw [dif_neg hrc]

/-- Shape of a call in which all three attempts fail: the full event trace
is encode, query, sleep 200ms, query, sleep 400ms, query, and the result
is the cause recorded by the third (last) attempt. -/
theorem zenohCall_allFail_trace (Req Res : Type) (encode : Req → List Nat)
    (decode : List Nat → Except Error Res) (service_name : String)
    (attempts : Nat → AttemptOutcome) (request : Req) (e0 e1 e2 : Error)
    (h0 : attemptError Res decode service_name (attempts 0) = some e0)
    (h1 : attemptError Res decode service_name (attempts 1) = some e1)
    (h2 : attemptError Res decode service_name (attempts 2) = some e2) :
    ZenohClient.call Req Res encode decode service_name none attempts request =
      (.error e2,
        [Event.encode (encode request), Event.query (encode request),
         Event.sleep 200, Event.query (encode request), Event.sleep 400,
         Event.query (encode request)]) := by
  simp only [ZenohClient.call]
  rw [zenohCallLoop_fail_step Res decode service_name attempts (encode request) 0 none e0
    (by norm_num [max_retries]) h0]
  rw [zenohCallLoop_fail_step Res decode service_name attempts (encode request) 1 (some e0) e1
    (by norm_num [max_retries]) h1]
  rw [zenohCallLoop_fail_step Res decode service_name attempts (encode request) 2 (some e1) e2
    (by norm_num [max_retries]) h2]
  rw [zenohCallLoop_exhausted Res decode service_name attempts (encode request) 3 (some e2)
    (by norm_num [max_retries])]
  simp [zenohRetryTail, zenohAfterRetries, max_retries, base_delay_ms]

/-- C1 counterexample: in a call whose three attempts all fail, the total
backoff slept is 600 ms (200 ms + 400 ms), so the claimed lower bound of
100 ms + 200 ms + 400 ms = 700 ms is false: ZenohClient::call sleeps
base_delay * 2 ^ retry_count only after retry_count has been incremented
(values 1 and 2), and never after the final attempt. -/
theorem C1_rpc_backoff_counterexample :
    (∀ i, i < 3 → (attemptError Nat c1decode "srv" (c1attempts i)).isSome) ∧
    queryCount (ZenohClient.call Unit Nat c1encode c1decode "srv" none c1attempts ()).2 = 3 ∧
    sleepTotal (ZenohClient.call Unit Nat c1encode c1decode "srv" none c1attempts ()).2 = 600 ∧
    ¬ 100 + 200 + 400 ≤
        sleepTotal (ZenohClient.call Unit Nat c1encode c1decode "srv" none c1attempts ()).2 := by
  have htr := zenohCall_allFail_trace Unit Nat c1encode c1decode "srv" c1attempts ()
    (Error.ServiceCallFailed "srv" ("No response: " ++ "down"))
    (Error.ServiceCallFailed "srv" ("No response: " ++ "down"))
    (Error.ServiceCallFailed "srv" ("No response: " ++ "down")) rfl rfl rfl
  refine ⟨by decide, ?_, ?_, ?_⟩ <;> rw [htr] <;> decide

/-- C1 (amended): for every RPC client call in which all attempts fail,
the call makes exactly 3 query attempts, the total exponential backoff
slept before the error is returned is exactly 200 ms + 400 ms = 600 ms
(the backoff before retry k being base_delay 100 ms times 2 ^ k for
k = 1, 2; there is no sleep after the final attempt), and the caller
receives the cause of the most recent failed attempt. -/
theorem C1_rpc_retry_exhaustion (Req Res : Type) (encode : Req → List Nat)
    (decode : List Nat → Except Error Res) (service_name : String)
    (attempts : Nat → AttemptOutcome) (request : Req) (e0 e1 e2 : Error)
    (h0 : attemptError Res decode service_name (attempts 0) = some e0)
    (h1 : attemptError Res decode service_name (attempts 1) = some e1)
    (h2 : attemptError Res decode service_name (attempts 2) = some e2) :
    (ZenohClient.call Req Res encode decode service_name none attempts request).1 =
        .error e2 ∧
    queryCount (ZenohClient.call Req Res encode decode service_name none attempts request).2 =
        max_retries ∧
    sleepTotal (ZenohClient.call Req Res encode decode service_name none attempts request).2 =
        base_delay_ms * 2 ^ 1 + base_delay_ms * 2 ^ 2 ∧
    sleepTotal (ZenohClient.call Req Res encode decode service_name none attempts request).2 =
        600 := by
  have htr := zenohCall_allFail_trace Req Res encode decode service_name attempts request
    e0 e1 e2 h0 h1 h2
  rw [htr]
  refine ⟨rfl, ?_, ?_, ?_⟩ <;> simp [queryCount, sleepTotal, max_retries, base_delay_ms]

/-- Witness for C1_rpc_retry_exhaustion at the concrete all-failing
environment. -/
theorem C1_rpc_retry_exhaustion_witness :
    (ZenohClient.call Unit Nat c1encode c1decode "srv" none c1attempts ()).1 =
        .error (Error.ServiceCallFailed "srv" ("No response: " ++ "down")) ∧
    queryCount (ZenohClient.call Unit Nat c1encode c1decode "srv" none c1attempts ()).2 =
        max_retries ∧
    sleepTotal (ZenohClient.call Unit Nat c1encode c1decode "srv" none c1attempts ()).2 =
        base_delay_ms * 2 ^ 1 + base_delay_ms * 2 ^ 2 ∧
    sleepTotal (ZenohClient.call Unit Nat c1encode c1decode "srv" none c1attempts ()).2 =
        600 :=
  C1_rpc_retry_exhaustion Unit Nat c1encode c1decode "srv" c1attempts ()
    (Error.ServiceCallFailed "srv" ("No response: " ++ "down"))
    (Error.ServiceCallFailed "srv" ("No response: " ++ "down"))
    (Error.ServiceCallFailed "srv" ("No response: " ++ "down")) rfl rfl rfl

/-- Lookup after inserting a key finds the inserted value. -/
theorem mapFind_insert_self {A : Type} (m : List (String × A)) (k : String) (v : A) :
    mapFind (mapInsert m k v) k = some v := by
  induction m with
  | nil => simp [mapInsert, mapFind]
  | cons hd tl ih =>
    obtain ⟨k1, v1⟩ := hd
    by_cases hk : k1 = k <;> simp [mapInsert, mapFind, hk, ih]

/-- A map contains a key right after that key is inserted. -/
theorem mapContains_insert_self {A : Type} (m : List (String × A)) (k : String) (v : A) :
    mapContains (mapInsert m k v) k = true := by
  simp [mapContains, mapFind_insert_self]

/-- Downcasting a stored value at its own dynamic type returns the stored
value. -/
theorem PValue.downcast_self (t : PType) (v : t.interp) :
    PValue.downcast t ⟨t, v⟩ = some v := by
  unfold PValue.downcast
  rw [dif_pos rfl]

/-- Downcasting a stored value at a different requested type fails. -/
theorem PValue.downcast_ne (t t2 : PType) (v : t.interp) (h : t2 ≠ t) :
    PValue.downcast t2 ⟨t, v⟩ = none := by
  unfold PValue.downcast
  rw [dif_neg (fun hh => h hh.symm)]

/-- After a publisher is successfully registered under a topic name, a
second create_publisher with the same name fails with TopicAlreadyExists,
returns the registry unchanged, and the first publisher stays
registered. -/
theorem create_publisher_duplicate (node : Node) (topic : String) (qos : QosProfile)
    (tc : Except Error Nat) (p : Publisher) (node2 : Node)
    (h : Node.create_publisher node topic qos tc = (.ok p, node2))
    (qos2 : QosProfile) (tc2 : Except Error Nat) :
    Node.create_publisher node2 topic qos2 tc2 =
      (.error (Error.TopicAlreadyExists topic node2.name), node2) ∧
    mapFind node2.publishers topic = some p := by
  simp only [Node.create_publisher] at h
  by_cases hc : mapContains node.publishers topic = true
  · rw [if_pos hc] at h
    simp at h
  · rw [if_neg hc] at h
    rcases tc with e | inner
    · simp at h
    · simp only [Prod.mk.injEq, Except.ok.injEq] at h
      obtain ⟨hp, hn⟩ := h
      subst hn
      constructor
      · simp only [Node.create_publisher]
        rw [if_pos (mapContains_insert_self node.publishers topic _)]
      · rw [mapFind_insert_self, hp]

/-- Duplicate-subscriber analogue of create_publisher_duplicate. -/
theorem create_subscriber_duplicate (node : Node) (topic : String) (qos : QosProfile)
    (tc : Except Error Nat) (s : Subscriber) (node2 : Node)
    (h : Node.create_subscriber node topic qos tc = (.ok s, node2))
    (qos2 : QosProfile) (tc2 : Except Error Nat) :
    Node.create_subscriber node2 topic qos2 tc2 =
      (.error (Error.TopicAlreadyExists topic node2.name), node2) ∧
    mapFind node2.subscribers topic = some s := by
  simp only [Node.create_subscriber] at h
  by_cases hc : mapContains node.subscribers topic = true
  · rw [if_pos hc] at h
    simp at h
  · rw [if_neg hc] at h
    rcases tc with e | inner
    · simp at h
    · simp only [Prod.mk.injEq, Except.ok.injEq] at h
      obtain ⟨hp, hn⟩ := h
      subst hn
      constructor
      · simp only [Node.create_subscriber]
        rw [if_pos (mapContains_insert_self node.subscribers topic _)]
      · rw [mapFind_insert_self, hp]

/-- Duplicate-service analogue of create_publisher_duplicate; the error is
ServiceAlreadyExists. -/
theorem create_service_duplicate (node : Node) (service_name : String)
    (tc : Except Error Nat) (s : Service) (node2 : Node)
    (h : Node.create_service node service_name tc = (.ok s, node2))
    (tc2 : Except Error Nat) :
    Node.create_service node2 service_name tc2 =
      (.error (Error.ServiceAlreadyExists service_name node2.name), node2) ∧
    mapFind node2.services service_name = some s := by
  simp only [Node.create_service] at h
  by_cases hc : mapContains node.services service_name = true
  · rw [if_pos hc] at h
    simp at h
  · rw [if_neg hc] at h
    rcases tc with e | inner
    · simp at h
    · simp only [Prod.mk.injEq, Except.ok.injEq] at h
      obtain ⟨hp, hn⟩ := h
      subst hn
      constructor
      · simp only [Node.create_service]
        rw [if_pos (mapContains_insert_self node.services service_name _)]
      · rw [mapFind_insert_self, hp]

/-- Duplicate-client analogue of create_publisher_duplicate; the error is
ServiceAlreadyExists. -/
theorem create_client_duplicate (node : Node) (service_name : String)
    (tc : Except Error Nat) (c : Client) (node2 : Node)
    (h : Node.create_client node service_name tc = (.ok c, node2))
    (tc2 : Except Error Nat) :
    Node.create_client node2 service_name tc2 =
      (.error (Error.ServiceAlreadyExists service_name node2.name), node2) ∧
    mapFind node2.clients service_name = some c := by
  simp only [Node.create_client] at h
  by_cases hc : mapContains node.clients service_name = true
  · rw [if_pos hc] at h
    simp at h
  · rw [if_neg hc] at h
    rcases tc with e | inner
    · simp at h
    · simp only [Prod.mk.injEq, Except.ok.injEq] at h
      obtain ⟨hp, hn⟩ := h
      subst hn
      constructor
      · simp only [Node.create_client]
        rw [if_pos (mapContains_insert_self node.clients service_name _)]
      · rw [mapFind_insert_self, hp]

/-- C2: for every node, name and resource kind, after a resource of that
kind has been created under the name, a second creation of the same kind
with the same name fails with the corresponding name-in-use error
(TopicAlreadyExists for publishers and subscribers, ServiceAlreadyExists
for services and clients), the registry state returned by the failed
attempt is unchanged, and the first resource remains registered. -/
theorem C2_duplicate_name_rejected :
    (∀ (node : Node) (topic : String) (qos : QosProfile) (tc : Except Error Nat)
        (p : Publisher) (node2 : Node),
      Node.create_publisher node topic qos tc = (.ok p, node2) →
      ∀ (qos2 : QosProfile) (tc2 : Except Error Nat),
        Node.create_publisher node2 topic qos2 tc2 =
          (.error (Error.TopicAlreadyExists topic node2.name), node2) ∧
        mapFind node2.publishers topic = some p) ∧
    (∀ (node : Node) (topic : String) (qos : QosProfile) (tc : Except Error Nat)
        (s : Subscriber) (node2 : Node),
      Node.create_subscriber node topic qos tc = (.ok s, node2) →
      ∀ (qos2 : QosProfile) (tc2 : Except Error Nat),
        Node.create_subscriber node2 topic qos2 tc2 =
          (.error (Error.TopicAlreadyExists topic node2.name), node2) ∧
        mapFind node2.subscribers topic = some s) ∧
    (∀ (node : Node) (service_name : String) (tc : Except Error Nat)
        (s : Service) (node2 : Node),
      Node.create_service node service_name tc = (.ok s, node2) →
      ∀ tc2 : Except Error Nat,
        Node.create_service node2 service_name tc2 =
          (.error (Error.ServiceAlreadyExists service_name node2.name), node2) ∧
        mapFind node2.services service_name = some s) ∧
    (∀ (node : Node) (service_name : String) (tc : Except Error Nat)
        (c : Client) (node2 : Node),
      Node.create_client node service_name tc = (.ok c, node2) →
      ∀ tc2 : Except Error Nat,
        Node.create_client node2 service_name tc2 =
          (.error (Error.ServiceAlreadyExists service_name node2.name), node2) ∧
        mapFind node2.clients service_name = some c) :=
  ⟨fun node topic qos tc p node2 h qos2 tc2 =>
      create_publisher_duplicate node topic qos tc p node2 h qos2 tc2,
   fun node topic qos tc s node2 h qos2 tc2 =>
      create_subscriber_duplicate node topic qos tc s node2 h qos2 tc2,
   fun node sn tc s node2 h tc2 => create_service_duplicate node sn tc s node2 h tc2,
   fun node sn tc c node2 h tc2 => create_client_duplicate node sn tc c node2 h tc2⟩

/-- Witness for C2_duplicate_name_rejected: each kind instantiated on a
fresh node, with the first creation discharged by computation. -/
theorem C2_duplicate_name_rejected_witness :
    (Node.create_publisher
        { emptyNode with publishers := [("t", { topic := "t", inner := 0 })] }
        "t" QosProfile.default (.ok 1) =
      (.error (Error.TopicAlreadyExists "t" "node"),
        { emptyNode with publishers := [("t", { topic := "t", inner := 0 })] }) ∧
      mapFind [("t", ({ topic := "t", inner := 0 } : Publisher))] "t" =
        some { topic := "t", inner := 0 }) ∧
    (Node.create_client
        { emptyNode with clients := [("s", { name := "s", inner := 0 })] }
        "s" (.ok 1) =
      (.error (Error.ServiceAlreadyExists "s" "node"),
        { emptyNode with clients := [("s", { name := "s", inner := 0 })] }) ∧
      mapFind [("s", ({ name := "s", inner := 0 } : Client))] "s" =
        some { name := "s", inner := 0 }) :=
  ⟨C2_duplicate_name_rejected.1 emptyNode "t" QosProfile.default (.ok 0)
      { topic := "t", inner := 0 }
      { emptyNode with publishers := [("t", { topic := "t", inner := 0 })] }
      rfl QosProfile.default (.ok 1),
   C2_duplicate_name_rejected.2.2.2 emptyNode "s" (.ok 0)
      { name := "s", inner := 0 }
      { emptyNode with clients := [("s", { name := "s", inner := 0 })] }
      rfl (.ok 1)⟩

/-- C4: setting a parameter of any supported type and reading it back at
the same type succeeds with a value equal to the one stored. -/
theorem C4_set_get_roundtrip (node : Node) (name : String) (t : PType) (v : t.interp) :
    ∃ node2, Node.set_parameter t node name v = .ok node2 ∧
      Node.get_parameter t node2 name = (.ok v, node2) := by
  refine ⟨{ node with parameters := mapInsert node.parameters name ({ name := name, value := ⟨t, v⟩, serialized := t.toJson v } : Parameter) }, rfl, ?_⟩
  simp only [Node.get_parameter, mapFind_insert_self]
  simp [Parameter.get_value, PValue.downcast_self]

/-- C5: Parameter::get_value returns the stored value whenever the
requested type equals the stored dynamic type, for every content of the
serialized field (the serialized form is not consulted); on a type
mismatch it returns whatever deserializing the canonical serialized form
at the requested type yields, and when that deserialization fails it
returns the parameter error naming the parameter. -/
theorem C5_get_value_two_paths (name : String) (t t2 : PType) (v : t.interp) (s : Json) :
    (Parameter.get_value t { name := name, value := ⟨t, v⟩, serialized := s } = .ok v) ∧
    (∀ w, t2 ≠ t → t2.fromJson s = .ok w →
      Parameter.get_value t2 { name := name, value := ⟨t, v⟩, serialized := s } = .ok w) ∧
    (∀ e, t2 ≠ t → t2.fromJson s = .error e →
      Parameter.get_value t2 { name := name, value := ⟨t, v⟩, serialized := s } =
        .error (.ParameterLegacy ("Failed to deserialize parameter " ++ name ++ ": " ++ e))) := by
  refine ⟨?_, ?_, ?_⟩
  · simp [Parameter.get_value, PValue.downcast_self]
  · intro w hne hf
    simp [Parameter.get_value, PValue.downcast_ne t t2 v hne, hf]
  · intro e hne hf
    simp [Parameter.get_value, PValue.downcast_ne t t2 v hne, hf]

/-- Witness for C5_get_value_two_paths: an integer-typed parameter read
back as integer (stored value), as float (deserialized from the canonical
form), and as boolean (deserialization fails, parameter error naming
p). -/
theorem C5_get_value_two_paths_witness :
    (Parameter.get_value .int
        { name := "p", value := ⟨.int, (1 : Int)⟩, serialized := Json.bool true } =
      .ok (1 : Int)) ∧
    (Parameter.get_value .float
        { name := "p", value := ⟨.int, (1 : Int)⟩, serialized := Json.int 1 } =
      .ok ((1 : Int) : Rat)) ∧
    (Parameter.get_value .bool
        { name := "p", value := ⟨.int, (1 : Int)⟩, serialized := Json.int 1 } =
      .error (.ParameterLegacy
        ("Failed to deserialize parameter " ++ "p" ++ ": " ++ "invalid type"))) :=
  ⟨(C5_get_value_two_paths "p" .int .bool (1 : Int) (Json.bool true)).1,
   (C5_get_value_two_paths "p" .int .float (1 : Int) (Json.int 1)).2.1
      ((1 : Int) : Rat) (by decide) rfl,
   (C5_get_value_two_paths "p" .int .bool (1 : Int) (Json.int 1)).2.2
      "invalid type" (by decide) rfl⟩

/-- C7: reading a parameter name that was never set returns the parameter
error carrying that name with reason Parameter not found, and leaves the
parameter map unchanged. -/
theorem C7_get_parameter_not_found (t : PType) (node : Node) (name : String)
    (h : mapFind node.parameters name = none) :
    Node.get_parameter t node name =
      (.error (Error.Parameter name "Parameter not found"), node) := by
  simp [Node.get_parameter, h]

/-- Witness for C7_get_parameter_not_found on a fresh node. -/
theorem C7_get_parameter_not_found_witness :
    Node.get_parameter .int emptyNode "p" =
      (.error (Error.Parameter "p" "Parameter not found"), emptyNode) :=
  C7_get_parameter_not_found .int emptyNode "p" rfl

/-- C9: the QoS profile argument of create_publisher and create_subscriber
is discarded unexamined: any two profiles yield identical results and
identical registry states on otherwise identical inputs. -/
theorem C9_qos_profile_discarded :
    (∀ (node : Node) (topic : String) (q1 q2 : QosProfile) (tc : Except Error Nat),
      Node.create_publisher node topic q1 tc = Node.create_publisher node topic q2 tc) ∧
    (∀ (node : Node) (topic : String) (q1 q2 : QosProfile) (tc : Except Error Nat),
      Node.create_subscriber node topic q1 tc = Node.create_subscriber node topic q2 tc) :=
  ⟨fun _ _ _ _ _ => rfl, fun _ _ _ _ _ => rfl⟩

/-- The two independently transcribed retry loops (blocking and suspending)
agree at every retry count and recorded error. -/
theorem zenohCallLoop_eq_async_aux (Res : Type) (decode : List Nat → Except Error Res)
    (service_name : String) (attempts : Nat → AttemptOutcome) (bytes : List Nat) :
    ∀ (n rc : Nat) (lastError : Option Error), max_retries - rc = n →
      zenohCallLoop Res decode service_name attempts bytes rc lastError =
        zenohCallAsyncLoop Res decode service_name attempts bytes rc lastError := by
  intro n
  induction n with
  | zero =>
    intro rc lastError hn
    have hrc : ¬ rc < max_retries := by omega
    rw [zenohCallLoop.eq_def, zenohCallAsyncLoop.eq_def, dif_neg hrc, dif_neg hrc]
  | succ k ih =>
    intro rc lastError hn
    have hrc : rc < max_retries := by omega
    have ih1 : ∀ le2, zenohCallLoop Res decode service_name attempts bytes (rc + 1) le2 =
        zenohCallAsyncLoop Res decode service_name attempts bytes (rc + 1) le2 :=
      fun le2 => ih (rc + 1) le2 (by omega)
    rw [zenohCallLoop.eq_def, zenohCallAsyncLoop.eq_def, dif_pos hrc, dif_pos hrc]
    simp only [ih1]

/-- C3: the blocking call and the suspending call_async produce identical
results and identical attempt/backoff traces for identical inputs, on
both the zenoh client (where the two bodies are transcribed separately)
and the mock client (whose call_async evaluates call). -/
theorem C3_blocking_and_async_identical :
    (∀ (Req Res : Type) (encode : Req → List Nat) (decode : List Nat → Except Error Res)
        (service_name : String) (key_expr_err : Option String)
        (attempts : Nat → AttemptOutcome) (request : Req),
      ZenohClient.call Req Res encode decode service_name key_expr_err attempts request =
        ZenohClient.call_async Req Res encode decode service_name key_expr_err attempts request) ∧
    (∀ (Req Res : Type) (encode : Req → List Nat) (decode : List Nat → Except Error Res)
        (st : MockTransport) (service_name : String) (request : Req),
      MockClient.call Req Res encode decode st service_name request =
        MockClient.call_async Req Res encode decode st service_name request) := by
  constructor
  · intro Req Res encode decode service_name key_expr_err attempts request
    rcases key_expr_err with _ | e
    · simp only [ZenohClient.call, ZenohClient.call_async]
      rw [zenohCallLoop_eq_async_aux Res decode service_name attempts (encode request)
        (max_retries - 0) 0 none rfl]
    · rfl
  · intro Req Res encode decode st service_name request
    rfl

/-- An attempt that records no failure cause is a reply whose payload
decodes successfully. -/
theorem attemptError_none (Res : Type) (decode : List Nat → Except Error Res)
    (service_name : String) (o : AttemptOutcome)
    (h : attemptError Res decode service_name o = none) :
    ∃ payload r, o = .reply payload ∧ decode payload = .ok r := by
  rcases o with e | e | e | payload <;> simp only [attemptError] at h
  · exact absurd h (by simp)
  · exact absurd h (by simp)
  · exact absurd h (by simp)
  · rcases hd : decode payload with e2 | r
    · rw [hd] at h
      simp at h
    · exact ⟨payload, r, rfl, hd⟩

/-- Every event contributed by zenohRetryTail is the failed attempt's
query, a backoff sleep, or an event of the remaining iterations. -/
theorem zenohRetryTail_mem (Res : Type) (rest : Except Error Res × List Event)
    (bytes : List Nat) (rc' : Nat) (ev : Event)
    (hev : ev ∈ (zenohRetryTail Res rest bytes rc').2) :
    ev = Event.query bytes ∨ (∃ ms, ev = Event.sleep ms) ∨ ev ∈ rest.2 := by
  unfold zenohRetryTail at hev
  by_cases h : rc' < max_retries
  · rw [if_pos h] at hev
    simp only [List.mem_cons] at hev
    rcases hev with h1 | h1 | h1
    · exact .inl h1
    · exact .inr (.inl ⟨_, h1⟩)
    · exact .inr (.inr h1)
  · rw [if_neg h] at hev
    simp only [List.mem_cons] at hev
    rcases hev with h1 | h1
    · exact .inl h1
    · exact .inr (.inr h1)

/-- Every event the retry loop emits is a query carrying the (fixed)
encoded payload or a backoff sleep: the loop never encodes. -/
theorem zenohCallLoop_events (Res : Type) (decode : List Nat → Except Error Res)
    (service_name : String) (attempts : Nat → AttemptOutcome) (bytes : List Nat) :
    ∀ (n rc : Nat) (lastError : Option Error), max_retries - rc = n →
      ∀ ev ∈ (zenohCallLoop Res decode service_name attempts bytes rc lastError).2,
        ev = Event.query bytes ∨ ∃ ms, ev = Event.sleep ms := by
  intro n
  induction n with
  | zero =>
    intro rc le hn ev hev
    have hrc : ¬ rc < max_retries := by omega
    rw [zenohCallLoop_exhausted Res decode service_name attempts bytes rc le hrc] at hev
    rcases le with _ | e <;> simp [zenohAfterRetries] at hev
  | succ k ih =>
    intro rc le hn ev hev
    have hrc : rc < max_retries := by omega
    rcases hae : attemptError Res decode service_name (attempts rc) with _ | e
    · obtain ⟨payload, r, ha, hd⟩ := attemptError_none Res decode service_name (attempts rc) hae
      rw [zenohCallLoop_success_step Res decode service_name attempts bytes rc le payload r
        hrc ha hd] at hev
      simp only [List.mem_singleton] at hev
      exact .inl hev
    · rw [zenohCallLoop_fail_step Res decode service_name attempts bytes rc le e hrc hae] at hev
      rcases zenohRetryTail_mem Res _ bytes (rc + 1) ev hev with h1 | h1 | h1
      · exact .inl h1
      · exact .inr h1
      · exact ih (rc + 1) (some e) (by omega) ev h1

/-- A trace all of whose events are queries with a fixed payload or sleeps
contains no encode event. -/
theorem encodeCount_eq_zero (bytes : List Nat) (l : List Event)
    (h : ∀ ev ∈ l, ev = Event.query bytes ∨ ∃ ms, ev = Event.sleep ms) :
    encodeCount l = 0 := by
  induction l with
  | nil => rfl
  | cons x xs ih =>
    have hxs := ih fun ev hev => h ev (List.mem_cons_of_mem x hev)
    have hx := h x (List.mem_cons_self x xs)
    rcases hx with h1 | ⟨ms, h1⟩ <;> subst h1 <;>
      simpa [encodeCount, List.filter] using hxs

/-- C6: for every call (with a valid key expression), the request is
encoded exactly once, the encode event is the very first event of the
trace (before any query attempt is issued), and every query attempt of
the call, including every retry, carries exactly that one encoded
payload: encoding is never repeated on retry.  Note the source's
encode_message cannot fail (prost encoding into a growable buffer always
succeeds; the expect in message.rs lines 31-35 is unreachable), so no
failing-encoding execution exists and in particular none is retried. -/
theorem C6_encode_once_before_queries (Req Res : Type) (encode : Req → List Nat)
    (decode : List Nat → Except Error Res) (service_name : String)
    (attempts : Nat → AttemptOutcome) (request : Req) :
    (ZenohClient.call Req Res encode decode service_name none attempts request).2.head? =
      some (Event.encode (encode request)) ∧
    encodeCount (ZenohClient.call Req Res encode decode service_name none attempts request).2 =
      1 ∧
    ∀ b, Event.query b ∈
        (ZenohClient.call Req Res encode decode service_name none attempts request).2 →
      b = encode request := by
  have hev := zenohCallLoop_events Res decode service_name attempts (encode request)
    (max_retries - 0) 0 none rfl
  simp only [ZenohClient.call]
  refine ⟨rfl, ?_, ?_⟩
  · have h0 := encodeCount_eq_zero (encode request)
      (zenohCallLoop Res decode service_name attempts (encode request) 0 none).2 hev
    simpa [encodeCount, List.filter] using h0
  · intro b hb
    rcases List.mem_cons.mp hb with h1 | h1
    · exact absurd h1 (by simp)
    · rcases hev _ h1 with h2 | ⟨ms, h2⟩
      · exact (Event.query.injEq b (encode request)) ▸ h2 ▸ rfl
      · exact absurd h2 (by simp)

/-- Witness for C6_encode_once_before_queries at the concrete all-failing
environment, discharging the query-membership hypothesis at the concrete
payload. -/
theorem C6_encode_once_before_queries_witness :
    (ZenohClient.call Unit Nat c1encode c1decode "srv" none c1attempts ()).2.head? =
      some (Event.encode (c1encode ())) ∧
    encodeCount (ZenohClient.call Unit Nat c1encode c1decode "srv" none c1attempts ()).2 = 1 ∧
    ([1] : List Nat) = c1encode () := by
  have h := C6_encode_once_before_queries Unit Nat c1encode c1decode "srv" c1attempts ()
  have htr := zenohCall_allFail_trace Unit Nat c1encode c1decode "srv" c1attempts ()
    (Error.ServiceCallFailed "srv" ("No response: " ++ "down"))
    (Error.ServiceCallFailed "srv" ("No response: " ++ "down"))
    (Error.ServiceCallFailed "srv" ("No response: " ++ "down")) rfl rfl rfl
  exact ⟨h.1, h.2.1, h.2.2 [1] (by rw [htr]; simp [c1encode])⟩

/-- C8 counterexample: in the mock transport a subscriber registered on
topic t before a message is published on t is never invoked with it.
create_subscriber only processes the payloads already stored for the
topic at registration time (none, here), and MockPublisher::publish only
appends bytes to the topic map, with no path that reaches any callback;
the second component of create_subscriber is the complete sequence of
callback invocations for the subscriber.  So after subscribing on the
fresh topic t and then publishing 42 on t, the message is stored in the
topic map, yet the callback invocation count for 42 is 0, not 1. -/
theorem C8_mock_pubsub_counterexample :
    ((MockTransport.create_subscriber Nat c8decode MockTransport.new "t").2 = [] ∧
      mapFind (MockPublisher.publish Nat c8encode
          (MockTransport.create_subscriber Nat c8decode MockTransport.new "t").1 "t" 42).topics
        "t" = some [[42]]) ∧
    ¬ (MockTransport.create_subscriber Nat c8decode MockTransport.new "t").2.count 42 = 1 := by
  exact ⟨⟨rfl, rfl⟩, by decide⟩

/-- C8 (amended): in the mock transport, a subscriber is invoked, at
registration time, with each message published on the topic before its
registration; in particular a subscriber registered on a fresh topic
after m was published on it receives a value equal to m exactly once,
while a subscriber registered before the publish receives nothing. -/
theorem C8_mock_subscriber_replays_prior (M : Type) (encode : M → List Nat)
    (decode : List Nat → Except Error M) (st : MockTransport) (topic : String) (m : M)
    (hfresh : mapFind st.topics topic = none)
    (hround : decode (encode m) = .ok m) :
    (MockTransport.create_subscriber M decode
        (MockPublisher.publish M encode
          (MockTransport.create_publisher st topic).1 topic m) topic).2 = [m] := by
  have h1 : (MockTransport.create_publisher st topic).1 =
      { st with topics := mapInsert st.topics topic [] } := by
    simp [MockTransport.create_publisher, mapContains, hfresh]
  rw [h1]
  have h2 : MockPublisher.publish M encode
        { st with topics := mapInsert st.topics topic [] } topic m =
      { st with topics := mapInsert (mapInsert st.topics topic []) topic [encode m] } := by
    simp [MockPublisher.publish, mapFind_insert_self]
  rw [h2]
  simp [MockTransport.create_subscriber, mapContains, mapFind_insert_self]
  simp [List.filterMap_cons, hround, Except.toOption]

/-- Witness for C8_mock_subscriber_replays_prior: publish 42 on a fresh
topic, then subscribe; the callback receives exactly [42]. -/
theorem C8_mock_subscriber_replays_prior_witness :
    (MockTransport.create_subscriber Nat c8decode
        (MockPublisher.publish Nat c8encode
          (MockTransport.create_publisher MockTransport.new "t").1 "t" 42) "t").2 = [42] :=
  C8_mock_subscriber_replays_prior Nat c8encode c8decode MockTransport.new "t" 42 rfl rfl

/-- C10: at the mock client, a handler that returns an error, a request
whose bytes fail to decode at the service, and a handler success whose
response encodes to the empty byte sequence all produce the same
observable outcome: the one-string ServiceCallFailed error carrying the
service name.  In particular a legitimately empty-encoding response is
reported as a failed call instead of being returned. -/
theorem C10_mock_empty_reply_indistinguishable (Req Res : Type)
    (encodeReq : Req → List Nat) (decodeReq : List Nat → Except Error Req)
    (encodeRes : Res → List Nat) (decodeRes : List Nat → Except Error Res)
    (st : MockTransport) (service_name : String)
    (h1 h3 : Req → Except Error Res) (r1 r2 r3 : Req) (res : Res) (eA eB : Error)
    (hA1 : decodeReq (encodeReq r1) = .ok r1)
    (hA2 : h1 r1 = .error eA)
    (hB : decodeReq (encodeReq r2) = .error eB)
    (hC1 : decodeReq (encodeReq r3) = .ok r3)
    (hC2 : h3 r3 = .ok res)
    (hC3 : encodeRes res = []) :
    MockClient.call Req Res encodeReq decodeRes
        (MockTransport.create_service Req Res decodeReq encodeRes st service_name h1).1
        service_name r1 = .error (Error.ServiceCallFailedLegacy service_name) ∧
    MockClient.call Req Res encodeReq decodeRes
        (MockTransport.create_service Req Res decodeReq encodeRes st service_name h1).1
        service_name r2 = .error (Error.ServiceCallFailedLegacy service_name) ∧
    MockClient.call Req Res encodeReq decodeRes
        (MockTransport.create_service Req Res decodeReq encodeRes st service_name h3).1
        service_name r3 = .error (Error.ServiceCallFailedLegacy service_name) := by
  refine ⟨?_, ?_, ?_⟩
  · simp [MockClient.call, MockTransport.create_service, mapFind_insert_self, hA1, hA2]
  · simp [MockClient.call, MockTransport.create_service, mapFind_insert_self, hB]
  · simp [MockClient.call, MockTransport.create_service, mapFind_insert_self, hC1, hC2, hC3]

/-- Witness for C10_mock_empty_reply_indistinguishable with concrete
encoders where the value 0 encodes to the empty byte sequence. -/
theorem C10_mock_empty_reply_indistinguishable_witness :
    MockClient.call Nat Nat c10encode c10decode
        (MockTransport.create_service Nat Nat c10decode c10encode MockTransport.new "s"
          (fun _ => .error (.Decoding "handler"))).1
        "s" 1 = .error (Error.ServiceCallFailedLegacy "s") ∧
    MockClient.call Nat Nat c10encode c10decode
        (MockTransport.create_service Nat Nat c10decode c10encode MockTransport.new "s"
          (fun _ => .error (.Decoding "handler"))).1
        "s" 0 = .error (Error.ServiceCallFailedLegacy "s") ∧
    MockClient.call Nat Nat c10encode c10decode
        (MockTransport.create_service Nat Nat c10decode c10encode MockTransport.new "s"
          (fun _ => .ok 0)).1
        "s" 1 = .error (Error.ServiceCallFailedLegacy "s") :=
  C10_mock_empty_reply_indistinguishable Nat Nat c10encode c10decode c10encode c10decode
    MockTransport.new "s" (fun _ => .error (.Decoding "handler")) (fun _ => .ok 0)
    1 0 1 0 (.Decoding "handler") (.Decoding "bad") rfl rfl rfl rfl rfl rfl

end Zenobuf
